import Mathlib

/-!
Verification of the gateway protocol-bridging layer of the grpc_r-d
repository: a shallow embedding of the HTTP gateway (gateway/main.go) and
the backend RPC service (server/main.go), together with theorems settling
the specified behavioural claims.

Conventions of the embedding:
* Strings are Lean `String`s; Go byte strings in this code base are ASCII.
* A literal `{` or `}` inside a Lean string literal is written `\x7b` / `\x7d`.
* Wall-clock time is a rational number of seconds.
* Fallible external calls (gRPC `Send`/`Recv`, WebSocket reads) are modelled
  by explicit event lists or oracle functions describing their outcomes.
-/

namespace GrpcGateway

/-! ## Server-stream bridge (gateway handleServerStream, server SayHelloServerStream) -/

/-- Outcome of one `stream.Recv()` call on the gateway side of the
server-stream RPC: a message, end of stream (`io.EOF`), or an error. -/
inductive RecvEvent where
  | msg (m : String)
  | eof
  | fail
deriving DecidableEq

/-- One Server-Sent-Events frame written by `handleServerStream`:
either a data frame carrying one backend message, or the distinguished
`event: done` terminal frame. -/
inductive SSEFrame where
  | data (payload : String)
  | done
deriving DecidableEq

/-- The receive loop of `handleServerStream` (gateway/main.go): on each
received message it writes and flushes one data frame; on `io.EOF` it writes
the done frame and breaks; on any other error it logs and breaks without
writing a further frame. -/
def sseStreamLoop : List RecvEvent → List SSEFrame
  | [] => []
  | RecvEvent.msg m :: rest => SSEFrame.data m :: sseStreamLoop rest
  | RecvEvent.eof :: _ => [SSEFrame.done]
  | RecvEvent.fail :: _ => []

/-- The messages produced by the backend `SayHelloServerStream`
(server/main.go) on an uncancelled run: five greetings
"Hello NAME - Message i of 5" for i = 1..5. -/
def sayHelloServerStream (name : String) : List String :=
  (List.range 5).map (fun i =>
    "Hello " ++ name ++ " - Message " ++ toString (i + 1) ++ " of 5")

/-- Name defaulting in `handleServerStream`: the `name` query parameter
(Go returns "" for a missing parameter) is replaced by "Guest" when empty. -/
def effectiveStreamName (rawQuery : String) : String :=
  if rawQuery = "" then "Guest" else rawQuery

/-- Helper: every output of the SSE loop is a list of data frames, possibly
followed by a single final done frame; a done frame is never interior. -/
theorem sseStreamLoop_shape (evs : List RecvEvent) :
    ∃ msgs : List String,
      sseStreamLoop evs = msgs.map SSEFrame.data ∨
      sseStreamLoop evs = msgs.map SSEFrame.data ++ [SSEFrame.done] := by
  induction evs with
  | nil => exact ⟨[], Or.inl rfl⟩
  | cons e rest ih =>
    cases e with
    | msg m =>
      obtain ⟨msgs, h | h⟩ := ih
      · exact ⟨m :: msgs, Or.inl (by simp [sseStreamLoop, h])⟩
      · exact ⟨m :: msgs, Or.inr (by simp [sseStreamLoop, h])⟩
    | eof => exact ⟨[], Or.inr rfl⟩
    | fail => exact ⟨[], Or.inl rfl⟩

/-- Claim C1: for every server-stream session, the SSE data frames written by
the gateway are identical in content and order to the messages received from
the backend stream (no reordering, no batching, no drops before the first
error), the done marker is written only after the last data frame and never
before it, and the request for name "Bob" yields exactly the five frames
"Hello Bob - Message 1 of 5" .. "Hello Bob - Message 5 of 5" followed by the
done marker. -/
theorem serverStream_frames_faithful (msgs : List String) :
    sseStreamLoop (msgs.map RecvEvent.msg ++ [RecvEvent.eof])
      = msgs.map SSEFrame.data ++ [SSEFrame.done]
    ∧ sseStreamLoop (msgs.map RecvEvent.msg ++ [RecvEvent.fail])
      = msgs.map SSEFrame.data
    ∧ (∀ evs : List RecvEvent, ∃ ms : List String,
        sseStreamLoop evs = ms.map SSEFrame.data ∨
        sseStreamLoop evs = ms.map SSEFrame.data ++ [SSEFrame.done])
    ∧ sseStreamLoop ((sayHelloServerStream "Bob").map RecvEvent.msg
        ++ [RecvEvent.eof])
      = [SSEFrame.data "Hello Bob - Message 1 of 5",
         SSEFrame.data "Hello Bob - Message 2 of 5",
         SSEFrame.data "Hello Bob - Message 3 of 5",
         SSEFrame.data "Hello Bob - Message 4 of 5",
         SSEFrame.data "Hello Bob - Message 5 of 5",
         SSEFrame.done] := by
  refine ⟨?_, ?_, sseStreamLoop_shape, by decide⟩
  · induction msgs with
    | nil => rfl
    | cons m rest ih => simpa [sseStreamLoop] using ih
  · induction msgs with
    | nil => rfl
    | cons m rest ih => simpa [sseStreamLoop] using ih

/-- Claim C10: a server-stream request with a missing or empty `name` query
parameter proceeds with the substituted default name "Guest": the backend is
called with "Guest" and the session yields the five "Hello Guest" data frames
followed by the done marker, rather than the request being rejected. -/
theorem serverStream_guest_default :
    effectiveStreamName "" = "Guest"
    ∧ sayHelloServerStream (effectiveStreamName "")
      = ["Hello Guest - Message 1 of 5",
         "Hello Guest - Message 2 of 5",
         "Hello Guest - Message 3 of 5",
         "Hello Guest - Message 4 of 5",
         "Hello Guest - Message 5 of 5"]
    ∧ sseStreamLoop ((sayHelloServerStream (effectiveStreamName "")).map
        RecvEvent.msg ++ [RecvEvent.eof])
      = [SSEFrame.data "Hello Guest - Message 1 of 5",
         SSEFrame.data "Hello Guest - Message 2 of 5",
         SSEFrame.data "Hello Guest - Message 3 of 5",
         SSEFrame.data "Hello Guest - Message 4 of 5",
         SSEFrame.data "Hello Guest - Message 5 of 5",
         SSEFrame.done] := by
  refine ⟨rfl, by decide, by decide⟩

/-! ## JSON encoding used by the gateway responses -/

/-- Hexadecimal digit character (lower case), as used by Go JSON escapes. -/
def hexDigitChar (n : Nat) : Char :=
  if n < 10 then Char.ofNat (48 + n) else Char.ofNat (87 + n)

/-- Escape of one character in a Go `encoding/json` string: quotes,
backslashes, the HTML-sensitive characters and control characters are
escaped, everything else is kept verbatim. -/
def goJSONEscapeChar (c : Char) : List Char :=
  if c = '"' then ['\\', '"']
  else if c = '\\' then ['\\', '\\']
  else if c = '\n' then ['\\', 'n']
  else if c = '\r' then ['\\', 'r']
  else if c = '\t' then ['\\', 't']
  else if c = '<' ∨ c = '>' ∨ c = '&' ∨ c.toNat < 32 then
    ['\\', 'u', '0', '0', hexDigitChar (c.toNat / 16), hexDigitChar (c.toNat % 16)]
  else [c]

/-- Go `encoding/json` string escaping, character by character. -/
def goJSONEscape (s : String) : String :=
  String.mk ((s.data.map goJSONEscapeChar).flatten)

/-- Go `strings.Join`: elements joined by the separator, in order. -/
def goStringsJoin (elems : List String) (sep : String) : String :=
  match elems with
  | [] => ""
  | [s] => s
  | s :: rest => s ++ sep ++ goStringsJoin rest sep

/-- JSON object text produced by Go for an ordered list of string fields
(Go sorts map keys; struct fields appear in declaration order). -/
def marshalStringPairs (kvs : List (String × String)) : String :=
  "\x7b" ++
    goStringsJoin
      (kvs.map (fun kv =>
        "\"" ++ goJSONEscape kv.1 ++ "\":\"" ++ goJSONEscape kv.2 ++ "\"")) "," ++
  "\x7d"

/-- Response body written by the gateway for a `UnaryResponse{Message: m}`
value (the JSON object text; the stream encoder's trailing newline is not
modelled). -/
def unaryResponseBody (m : String) : String :=
  marshalStringPairs [("message", m)]

/-! ## Client-stream bridge (server SayHelloClientStream, gateway handleClientStream) -/

/-- Aggregate message built by the backend `SayHelloClientStream`
(server/main.go): `fmt.Sprintf("Hello to all: %s! (Total: %d people, %v)",
strings.Join(names, ", "), len(names), totalTime)`, where `totalTime` is the
formatted wall-clock processing duration. -/
def sayHelloClientStream (names : List String) (totalTime : String) : String :=
  "Hello to all: " ++ goStringsJoin names ", " ++ "! (Total: "
    ++ toString names.length ++ " people, " ++ totalTime ++ ")"

/-- Helper: the accumulator loop of `String.intercalate`. -/
theorem intercalate_go_eq (sep : String) :
    ∀ (l : List String) (acc : String),
      String.intercalate.go acc sep l
        = acc ++ goStringsJoin (l.map (fun a => sep ++ a)) "" := by
  intro l
  induction l with
  | nil => intro acc; simp [String.intercalate.go, goStringsJoin]
  | cons a as ih =>
    intro acc
    cases as with
    | nil =>
      simp [String.intercalate.go, goStringsJoin, String.append_assoc]
    | cons b bs =>
      rw [String.intercalate.go, ih]
      simp [goStringsJoin, String.append_assoc]

/-- Helper: `goStringsJoin` agrees with the library join `String.intercalate`. -/
theorem goStringsJoin_eq_intercalate (sep : String) (l : List String) :
    goStringsJoin l sep = String.intercalate sep l := by
  cases l with
  | nil => rfl
  | cons a as =>
    rw [String.intercalate, intercalate_go_eq]
    cases as with
    | nil => simp [goStringsJoin]
    | cons b bs =>
      simp only [goStringsJoin]
      induction bs generalizing a b with
      | nil => simp [goStringsJoin, String.append_assoc]
      | cons c cs ih =>
        simp only [goStringsJoin, List.map]
        rw [ih]
        simp [goStringsJoin, String.append_assoc]

/-- Counterexample for claim C2 as stated: for the batch
["Alice","Bob","Charlie"] the backend aggregate (for any measured duration,
here the minimal rendering "0s") is not the exact string
"Hello to all: Alice, Bob, Charlie! (Total: 3 people)" — the current code
appends the processing duration after the people count. -/
theorem clientStream_exact_total_cx :
    sayHelloClientStream ["Alice", "Bob", "Charlie"] "0s"
      ≠ "Hello to all: Alice, Bob, Charlie! (Total: 3 people)"
    ∧ sayHelloClientStream ["Alice", "Bob", "Charlie"] "0s"
      = "Hello to all: Alice, Bob, Charlie! (Total: 3 people, 0s)" := by
  constructor
  · decide
  · decide

/-- Claim C2 (amended): the aggregate message joins the input names with
", " in exactly the input order and reports a count equal to the input
length, followed by the formatted processing duration; for the batch
["Alice","Bob","Charlie"] the gateway aggregate response body is exactly
`{"message":"Hello to all: Alice, Bob, Charlie! (Total: 3 people, D)"}`
where D is the formatted duration. -/
theorem clientStream_aggregate_amended (names : List String) (elapsed : String) :
    sayHelloClientStream names elapsed
      = "Hello to all: " ++ String.intercalate ", " names ++ "! (Total: "
        ++ toString names.length ++ " people, " ++ elapsed ++ ")"
    ∧ sayHelloClientStream ["Alice", "Bob", "Charlie"] elapsed
      = "Hello to all: Alice, Bob, Charlie! (Total: 3 people, " ++ elapsed ++ ")"
    ∧ unaryResponseBody (sayHelloClientStream ["Alice", "Bob", "Charlie"] "0s")
      = "\x7b\"message\":\"Hello to all: Alice, Bob, Charlie! (Total: 3 people, 0s)\"\x7d" := by
  refine ⟨?_, ?_, by decide⟩
  · rw [sayHelloClientStream, goStringsJoin_eq_intercalate]
  · rw [sayHelloClientStream]
    have h : goStringsJoin ["Alice", "Bob", "Charlie"] ", "
        = "Alice, Bob, Charlie" := by decide
    rw [h]
    congr 1

/-! ## Gateway handleClientStream: the send-all-then-await loop -/

/-- Terminal outcome of an HTTP handler: a 200 JSON response body, or an
`http.Error` with the given status code. -/
inductive HttpOut where
  | ok (body : String)
  | httpError (code : Nat)
deriving DecidableEq

/-- The send loop of `handleClientStream` (gateway/main.go): the decoded
names are sent in order on the client stream; `sendFails i` tells whether
the i-th `stream.Send` returns an error (the loop stops at the first failure
with `http.Error(..., 500)`); after the last successful send,
`CloseAndRecv` yields the backend aggregate (`recvResult = some agg`) or an
error (`none`), and the aggregate is encoded as the JSON response body. -/
def clientSendLoop (sendFails : Nat → Bool) (recvResult : Option String) :
    List String → Nat → HttpOut
  | [], _ =>
    match recvResult with
    | some agg => HttpOut.ok (unaryResponseBody agg)
    | none => HttpOut.httpError 500
  | _ :: rest, i =>
    if sendFails i then HttpOut.httpError 500
    else clientSendLoop sendFails recvResult rest (i + 1)

/-- Helper: if every send in the remaining batch succeeds, the loop reaches
the aggregate. -/
theorem clientSendLoop_all_ok (sendFails : Nat → Bool) (agg : String) :
    ∀ (names : List String) (k : Nat),
      (∀ i, i < names.length → sendFails (k + i) = false) →
      clientSendLoop sendFails (some agg) names k
        = HttpOut.ok (unaryResponseBody agg) := by
  intro names
  induction names with
  | nil => intro k _; rfl
  | cons n rest ih =>
    intro k h
    have h0 : sendFails k = false := by simpa using h 0 (Nat.succ_pos _)
    rw [clientSendLoop, h0]
    simp only [Bool.false_eq_true, if_false]
    exact ih (k + 1) (fun i hi => by
      have := h (i + 1) (Nat.succ_lt_succ hi)
      simpa [Nat.add_assoc, Nat.add_comm, Nat.add_left_comm] using this)

/-- Helper: if some send in the remaining batch fails, the loop ends in the
error response, independently of the `CloseAndRecv` outcome. -/
theorem clientSendLoop_fail (sendFails : Nat → Bool) (recvResult : Option String) :
    ∀ (names : List String) (k : Nat),
      (∃ i, i < names.length ∧ sendFails (k + i) = true) →
      clientSendLoop sendFails recvResult names k = HttpOut.httpError 500 := by
  intro names
  induction names with
  | nil =>
    intro k h
    obtain ⟨i, hi, _⟩ := h
    exact absurd hi (Nat.not_lt_zero i)
  | cons n rest ih =>
    intro k h
    by_cases hk : sendFails k = true
    · rw [clientSendLoop, hk]
      simp
    · rw [clientSendLoop]
      simp only [hk, if_false]
      obtain ⟨i, hi, hfail⟩ := h
      cases i with
      | zero => exact absurd hfail (by simpa using hk)
      | succ j =>
        exact ih (k + 1) ⟨j, Nat.lt_of_succ_lt_succ hi, by
          simpa [Nat.add_assoc, Nat.add_comm, Nat.add_left_comm] using hfail⟩

/-- Claim C3: for a client-stream batch of N names, if all N sends succeed
the gateway produces exactly one aggregated JSON response; if any send fails
mid-batch the gateway produces no aggregated response, does not await the
backend aggregate (the outcome is independent of the `CloseAndRecv` result),
and surfaces a terminal error response to the caller. -/
theorem clientStream_all_or_error (names : List String) (sendFails : Nat → Bool)
    (agg : String) :
    ((∀ i, i < names.length → sendFails i = false) →
      clientSendLoop sendFails (some agg) names 0
        = HttpOut.ok (unaryResponseBody agg))
    ∧ ((∃ i, i < names.length ∧ sendFails i = true) →
      ∀ recvResult : Option String,
        clientSendLoop sendFails recvResult names 0 = HttpOut.httpError 500) := by
  constructor
  · intro h
    exact clientSendLoop_all_ok sendFails agg names 0 (fun i hi => by
      simpa using h i hi)
  · intro h recvResult
    obtain ⟨i, hi, hfail⟩ := h
    exact clientSendLoop_fail sendFails recvResult names 0 ⟨i, hi, by simpa using hfail⟩

/-- Witness for C3: a two-name batch with no send failures yields the
aggregate body; the same batch with the second send failing yields the 500
error even though `CloseAndRecv` would have failed too. -/
theorem clientStream_all_or_error_witness :
    clientSendLoop (fun _ => false) (some "agg") ["a", "b"] 0
      = HttpOut.ok (unaryResponseBody "agg")
    ∧ clientSendLoop (fun i => decide (i = 1)) none ["a", "b"] 0
      = HttpOut.httpError 500 :=
  ⟨(clientStream_all_or_error ["a", "b"] (fun _ => false) "agg").1
      (fun _ _ => rfl),
    (clientStream_all_or_error ["a", "b"] (fun i => decide (i = 1)) "agg").2
      ⟨1, by decide, by decide⟩ none⟩

/-! ## Disabled unary bridge (gateway handleUnary) -/

/-- Inbound HTTP request, with the fields the gateway reads. -/
structure HttpRequest where
  method : String
  path : String
  origin : String
  xForwardedFor : String
  remoteAddr : String
  acceptEncoding : String
  body : String
deriving DecidableEq

/-- Result of the unary handler: status code, Content-Type header, body,
and the number of backend RPC calls it performed. -/
structure UnaryResult where
  status : Nat
  contentType : String
  body : String
  backendCalls : Nat
deriving DecidableEq

/-- The fixed error object written by `handleUnary` (Go encodes the
`map[string]string` with its keys in sorted order: error, message, status). -/
def unaryDisabledBody : String :=
  marshalStringPairs
    [("error", "Service Unavailable"),
     ("message", "Unary API endpoint has been disabled"),
     ("status", "503")]

/-- The gateway `handleUnary` (gateway/main.go): logs, sets the JSON
Content-Type, writes status 503 and the fixed error body; the request is
never read and no backend RPC is issued. -/
def handleUnary (_r : HttpRequest) : UnaryResult :=
  UnaryResult.mk 503 "application/json" unaryDisabledBody 0

/-- Claim C4: every request to the unary endpoint, regardless of method,
headers, or body, receives the fixed 503 response with the JSON error body
containing the keys "error", "message" and "status", and the backend RPC is
never invoked (backend call count stays zero). -/
theorem unary_disabled_fixed (r : HttpRequest) :
    handleUnary r = UnaryResult.mk 503 "application/json" unaryDisabledBody 0
    ∧ (handleUnary r).body
      = "\x7b\"error\":\"Service Unavailable\",\"message\":\"Unary API endpoint has been disabled\",\"status\":\"503\"\x7d"
    ∧ (handleUnary r).backendCalls = 0 := by
  refine ⟨rfl, ?_, rfl⟩
  show unaryDisabledBody = _
  decide

/-! ## Rate limiter (gateway rateLimitMiddleware, newRateLimiter) -/

/-- Client identity used by `rateLimitMiddleware`: the X-Forwarded-For
header when non-empty, else the transport peer address `r.RemoteAddr`. -/
def clientIdentity (xForwardedFor remoteAddr : String) : String :=
  if xForwardedFor = "" then remoteAddr else xForwardedFor

/-- One micro-token: token counts are carried in millionths of a token and
timestamps in microseconds, so that the real-valued bucket arithmetic of
`golang.org/x/time/rate` is represented exactly for an integer refill rate
(tokens are refilled at `limit` tokens per second, i.e. `limit`
micro-tokens per microsecond times one million). -/
def tokenUnit : ℤ := 1000000

/-- State of one `rate.Limiter` token bucket: current micro-tokens and the
time of the last update in microseconds. -/
structure BucketState where
  microTokens : ℤ
  lastTimeMicros : ℤ
deriving DecidableEq

/-- Token count after advancing a bucket to time `now`: refill at `limit`
tokens per second, capped at the burst capacity. -/
def bucketAdvance (limit burst : ℤ) (s : BucketState) (now : ℤ) : ℤ :=
  let t := s.microTokens + (now - s.lastTimeMicros) * limit
  if burst * tokenUnit < t then burst * tokenUnit else t

/-- One `limiter.Allow()` call at time `now`: the bucket is advanced; if at
least one token is available it is consumed and the request is admitted,
otherwise the request is denied and no token is consumed. -/
def bucketAllow (limit burst : ℤ) (s : BucketState) (now : ℤ) : Bool × BucketState :=
  let t := bucketAdvance limit burst s now
  if tokenUnit ≤ t then (true, BucketState.mk (t - tokenUnit) now)
  else (false, BucketState.mk t now)

/-- A freshly created limiter as first observed at time `now`:
`rate.NewLimiter` behaves as a full bucket on its first use. -/
def newBucket (burst : ℤ) (now : ℤ) : BucketState :=
  BucketState.mk (burst * tokenUnit) now

/-- Outcome of `rateLimitMiddleware` for one request: denied with
`http.Error(..., 429)` before reaching the bridge handler, or passed on to
the wrapped handler. -/
inductive AdmitOut where
  | denied (code : Nat)
  | passed
deriving DecidableEq

/-- One pass of `rateLimitMiddleware` over the identity's bucket. -/
def rateLimitStep (limit burst : ℤ) (s : BucketState) (now : ℤ) :
    AdmitOut × BucketState :=
  let r := bucketAllow limit burst s now
  if r.1 then (AdmitOut.passed, r.2) else (AdmitOut.denied 429, r.2)

/-- A sequence of requests from one identity at the given times, run through
the middleware in order. -/
def runRateLimit (limit burst : ℤ) : BucketState → List ℤ → List AdmitOut
  | _, [] => []
  | s, t :: ts =>
    let r := rateLimitStep limit burst s t
    r.1 :: runRateLimit limit burst r.2 ts

/-- The gateway's global limiter configuration: `newRateLimiter(100, 200)`. -/
def gatewayRefillRate : ℤ := 100

/-- Burst capacity of the gateway's global limiter. -/
def gatewayBurst : ℤ := 200

/-- Claim C5: the client identity is the X-Forwarded-For header when present
else the peer address, and with refill rate R=100 tokens/sec and burst B=200
a new identity is admitted exactly B=200 times at one instant, the 201st
request in the same instant is denied with the 429 terminal response without
reaching the bridge handler, and after waiting 1/R = 1/100 s (10000 µs)
exactly one more request is admitted (the next one at that time is denied
again). -/
theorem rate_limit_burst_refill :
    clientIdentity "" "10.0.0.1:54321" = "10.0.0.1:54321"
    ∧ clientIdentity "203.0.113.9" "10.0.0.1:54321" = "203.0.113.9"
    ∧ runRateLimit gatewayRefillRate gatewayBurst (newBucket gatewayBurst 0)
        (List.replicate 201 (0 : ℤ) ++ [10000, 10000])
      = List.replicate 200 AdmitOut.passed
        ++ [AdmitOut.denied 429, AdmitOut.passed, AdmitOut.denied 429] := by
  refine ⟨rfl, rfl, ?_⟩
  set_option maxRecDepth 10000 in decide

/-! ## Bidirectional bridge (gateway handleBidirectional) -/

/-- Outcome of one `ws.ReadJSON` call in the send loop: a decoded message
carrying a `name` field, or a read error / close. -/
inductive WsRead where
  | msg (name : String)
  | closed
deriving DecidableEq

/-- Observable events of one bidirectional session on the gateway side:
names forwarded to the RPC stream by the send loop, followed by the cleanup
actions `cancel()`, `stream.CloseSend()` and the bounded wait on the receive
goroutine (joined within the grace period, or timed out after it). -/
inductive BidiEvent where
  | forward (name : String)
  | cancelCtx
  | closeSend
  | recvJoined
  | recvTimeout (graceSeconds : Nat)
deriving DecidableEq

/-- The send loop of `handleBidirectional` (gateway/main.go): reads WebSocket
messages until a read error/close, skips empty names without sending, breaks
on the first failing `stream.Send` (`sendFails i` tells whether the i-th send
errors), and otherwise forwards each name in arrival order. -/
def bidiSendLoop (sendFails : Nat → Bool) : List WsRead → Nat → List String
  | [], _ => []
  | WsRead.closed :: _, _ => []
  | WsRead.msg n :: rest, i =>
    if n = "" then bidiSendLoop sendFails rest i
    else if sendFails i then []
    else n :: bidiSendLoop sendFails rest (i + 1)

/-- The cleanup block after the send loop of `handleBidirectional`:
`cancel()`, then `stream.CloseSend()`, then a `select` on the receive
goroutine's done channel bounded by `time.After(2 * time.Second)`. -/
def bidiCleanup (recvFinishedWithinGrace : Bool) : List BidiEvent :=
  [BidiEvent.cancelCtx, BidiEvent.closeSend,
   if recvFinishedWithinGrace then BidiEvent.recvJoined else BidiEvent.recvTimeout 2]

/-- Event trace of one bidirectional session, from the start of the send
loop to the end of the handler. -/
def handleBidirectional (sendFails : Nat → Bool) (reads : List WsRead)
    (recvFinishedWithinGrace : Bool) : List BidiEvent :=
  (bidiSendLoop sendFails reads 0).map BidiEvent.forward
    ++ bidiCleanup recvFinishedWithinGrace

/-- Claim C6: whenever the send loop exits — for any read sequence and any
send-failure pattern — the session (a) cancels the shared context, (b)
signals end-of-input via CloseSend, and (c) waits for the receive goroutine
bounded by the 2-second grace timeout; no name is forwarded after the
cleanup begins, and in the timeout case the handler still completes, ending
with the logged timeout event rather than blocking. -/
theorem bidi_shutdown_sequence (sendFails : Nat → Bool) (reads : List WsRead)
    (finished : Bool) :
    handleBidirectional sendFails reads finished
      = (bidiSendLoop sendFails reads 0).map BidiEvent.forward
        ++ [BidiEvent.cancelCtx, BidiEvent.closeSend,
            if finished then BidiEvent.recvJoined else BidiEvent.recvTimeout 2]
    ∧ (handleBidirectional sendFails reads true).getLast? = some BidiEvent.recvJoined
    ∧ (handleBidirectional sendFails reads false).getLast?
        = some (BidiEvent.recvTimeout 2) := by
  refine ⟨rfl, ?_, ?_⟩
  · simp [handleBidirectional, bidiCleanup]
  · simp [handleBidirectional, bidiCleanup]

/-! ## CORS middleware (gateway enableCORS) -/

/-- Go `strings.HasPrefix`, character by character. -/
def goHasPre (s pre : String) : Bool :=
  pre.data.isPrefixOf s.data

/-- The Access-Control-Allow-Origin value chosen by `enableCORS`
(gateway/main.go): a non-empty origin matching the localhost allow-list is
reflected; an empty origin (same-origin request) gets the wildcard; any
other origin gets the fixed default. -/
def corsAllowOrigin (origin : String) : String :=
  if origin != "" && (origin == "http://localhost:3000"
      || origin == "http://localhost:3001"
      || goHasPre origin "http://localhost:"
      || goHasPre origin "http://127.0.0.1:")
  then origin
  else if origin == "" then "*"
  else "http://localhost:3000"

/-- The CORS response headers set by `enableCORS` for a request with the
given Origin header. -/
structure CorsHeaders where
  allowOrigin : String
  allowMethods : String
  allowHeaders : String
  allowCredentials : String
  exposeHeaders : String
deriving DecidableEq

/-- The full header set written by `enableCORS`. -/
def enableCORSHeaders (origin : String) : CorsHeaders :=
  CorsHeaders.mk (corsAllowOrigin origin)
    "POST, GET, OPTIONS, PUT, DELETE"
    "Content-Type, Authorization, X-Requested-With, Accept, Origin"
    "true"
    "Content-Length, Content-Type"

/-- Counterexample for claim C7 as stated: a request without an Origin
header passes through the CORS middleware with
Access-Control-Allow-Origin "*" while Access-Control-Allow-Credentials is
"true". -/
theorem cors_wildcard_credentials_cx :
    (enableCORSHeaders "").allowOrigin = "*"
    ∧ (enableCORSHeaders "").allowCredentials = "true" := by
  decide

/-- Claim C7 (amended): the credentials header is always "true"; for every
request with a non-empty Origin header the Access-Control-Allow-Origin is
never the wildcard — a matched allow-listed origin is reflected back and any
other origin gets the fixed default "http://localhost:3000" — but for a
request with an empty Origin header the middleware does set the wildcard
together with credentials "true". -/
theorem cors_origin_amended (origin : String) :
    (enableCORSHeaders origin).allowCredentials = "true"
    ∧ (origin ≠ "" →
        (enableCORSHeaders origin).allowOrigin ≠ "*"
        ∧ ((enableCORSHeaders origin).allowOrigin = origin
            ∨ (enableCORSHeaders origin).allowOrigin = "http://localhost:3000"))
    ∧ (enableCORSHeaders "").allowOrigin = "*" := by
  refine ⟨rfl, ?_, by decide⟩
  intro hne
  have h : corsAllowOrigin origin = origin
      ∨ corsAllowOrigin origin = "http://localhost:3000" := by
    rw [corsAllowOrigin]
    split
    · exact Or.inl rfl
    · split
      · rename_i h0
        exact absurd (by simpa using h0) hne
      · exact Or.inr rfl
  by_cases horig : origin = "*"
  · subst horig
    refine ⟨?_, Or.inr ?_⟩
    · show corsAllowOrigin "*" ≠ "*"
      decide
    · show corsAllowOrigin "*" = "http://localhost:3000"
      decide
  · refine ⟨?_, h⟩
    show corsAllowOrigin origin ≠ "*"
    rcases h with h | h
    · rw [h]; exact horig
    · rw [h]; decide

/-- Witness for the amended C7: a non-allow-listed, non-empty origin gets
the fixed default, not the wildcard. -/
theorem cors_origin_amended_witness :
    (enableCORSHeaders "http://evil.example").allowOrigin ≠ "*"
    ∧ ((enableCORSHeaders "http://evil.example").allowOrigin = "http://evil.example"
        ∨ (enableCORSHeaders "http://evil.example").allowOrigin
          = "http://localhost:3000") :=
  (cors_origin_amended "http://evil.example").2.1 (by decide)

/-! ## Route table and health endpoint (gateway main) -/

/-- The middleware stages of the gateway, named after the wrapping functions
in gateway/main.go. -/
inductive Middleware where
  | rateLimit
  | gzip
  | cors
  | logger
deriving DecidableEq

/-- The route registrations of `main` (gateway/main.go), outermost
middleware first: the four /api routes are wrapped in `rateLimitMiddleware`,
the health endpoint only in `enableCORS`. -/
def routeMiddlewares (path : String) : Option (List Middleware) :=
  if path = "/api/unary" then
    some [Middleware.rateLimit, Middleware.gzip, Middleware.cors, Middleware.logger]
  else if path = "/api/server-stream" then
    some [Middleware.rateLimit, Middleware.cors, Middleware.logger]
  else if path = "/api/client-stream" then
    some [Middleware.rateLimit, Middleware.gzip, Middleware.cors, Middleware.logger]
  else if path = "/api/bidirectional" then
    some [Middleware.rateLimit, Middleware.cors, Middleware.logger]
  else if path = "/health" then
    some [Middleware.cors]
  else none

/-- The health handler (gateway/main.go): status 200 and the healthy body. -/
def handleHealth : Nat × String :=
  (200, marshalStringPairs [("status", "healthy")])

/-- Counterexample for claim C8 as stated: the health route is registered
with only the CORS middleware — `rateLimitMiddleware` does not wrap it, so
rate limiting is not applied to all routes uniformly. -/
theorem health_rate_limit_cx :
    routeMiddlewares "/health" = some [Middleware.cors]
    ∧ Middleware.rateLimit ∉ (routeMiddlewares "/health").getD [] := by
  decide

/-- Claim C8 (amended): a GET to the health endpoint returns status 200 with
body `{"status":"healthy"}` and the response passes through the CORS
middleware, but the health route is not rate-limited: `rateLimitMiddleware`
wraps the four /api routes and not /health. -/
theorem health_route_amended :
    handleHealth = (200, "\x7b\"status\":\"healthy\"\x7d")
    ∧ routeMiddlewares "/health" = some [Middleware.cors]
    ∧ Middleware.cors ∈ (routeMiddlewares "/health").getD []
    ∧ Middleware.rateLimit ∉ (routeMiddlewares "/health").getD []
    ∧ Middleware.rateLimit ∈ (routeMiddlewares "/api/unary").getD []
    ∧ Middleware.rateLimit ∈ (routeMiddlewares "/api/server-stream").getD []
    ∧ Middleware.rateLimit ∈ (routeMiddlewares "/api/client-stream").getD []
    ∧ Middleware.rateLimit ∈ (routeMiddlewares "/api/bidirectional").getD [] := by
  decide

/-! ## Gzip middleware (gateway enableGzip) -/

/-- Worker for Go `strings.Contains`: does `needle` occur in the haystack? -/
def containsAux (needle : List Char) : List Char → Bool
  | [] => needle.isEmpty
  | c :: rest => needle.isPrefixOf (c :: rest) || containsAux needle rest

/-- Go `strings.Contains`. -/
def goContains (s sub : String) : Bool :=
  containsAux sub.data s.data

/-- The streaming-endpoint test of `enableGzip` (gateway/main.go):
compression is skipped when the request path contains "stream" or
"bidirectional". -/
def gzipSkipPath (path : String) : Bool :=
  goContains path "stream" || goContains path "bidirectional"

/-- Response as seen on the wire after the gzip middleware: whether
Content-Encoding gzip was set, and the emitted bytes. -/
structure GzipOut where
  contentEncodingGzip : Bool
  emitted : String
deriving DecidableEq

/-- The `enableGzip` middleware (gateway/main.go), with the gzip library
abstracted as the `compress` function applied to everything the wrapped
handler writes: skip for streaming paths, skip when the Accept-Encoding
header does not advertise gzip, otherwise set Content-Encoding and route the
handler's writes through the compressor. -/
def enableGzip (compress : String → String)
    (path acceptEncoding handlerBody : String) : GzipOut :=
  if gzipSkipPath path then GzipOut.mk false handlerBody
  else if !(goContains acceptEncoding "gzip") then GzipOut.mk false handlerBody
  else GzipOut.mk true (compress handlerBody)

/-- Claim C9: the gzip middleware leaves the response bytes unchanged when
the request path serves a streaming response or the caller does not
advertise gzip in Accept-Encoding; in all other cases the response carries
Content-Encoding gzip and decompressing the emitted bytes yields exactly the
bytes the wrapped handler wrote (round-trip identity, for any compressor and
inverse decompressor; the handler never observes whether it compresses). -/
theorem gzip_conditional_roundtrip (compress decompress : String → String)
    (hrt : ∀ b, decompress (compress b) = b)
    (path acceptEncoding handlerBody : String) :
    (gzipSkipPath path = true →
      enableGzip compress path acceptEncoding handlerBody
        = GzipOut.mk false handlerBody)
    ∧ (goContains acceptEncoding "gzip" = false →
      enableGzip compress path acceptEncoding handlerBody
        = GzipOut.mk false handlerBody)
    ∧ (gzipSkipPath path = false → goContains acceptEncoding "gzip" = true →
      (enableGzip compress path acceptEncoding handlerBody).contentEncodingGzip
        = true
      ∧ decompress (enableGzip compress path acceptEncoding handlerBody).emitted
        = handlerBody) := by
  refine ⟨?_, ?_, ?_⟩
  · intro h
    simp [enableGzip, h]
  · intro h
    by_cases hp : gzipSkipPath path = true
    · simp [enableGzip, hp]
    · simp [enableGzip, hp, h]
  · intro h1 h2
    simp [enableGzip, h1, h2, hrt]

/-- Witness for C9: with the identity codec, a non-streaming path and a
gzip-advertising Accept-Encoding header, the middleware marks the response
compressed and the round trip restores the handler's bytes. -/
theorem gzip_conditional_roundtrip_witness :
    (enableGzip id "/api/unary" "gzip, deflate" "payload").contentEncodingGzip = true
    ∧ id (enableGzip id "/api/unary" "gzip, deflate" "payload").emitted = "payload" :=
  (gzip_conditional_roundtrip id id (fun _ => rfl)
    "/api/unary" "gzip, deflate" "payload").2.2 (by decide) (by decide)

end GrpcGateway
